import Mathlib

/-!
# Verification of the Prima TV provider (prima.py)

Shallow embedding of `resources/lib/providers/prima.py` — the catchup
resolution pipeline of the LiveTV CZ/SK Kodi addon: token caching
(`get_prima_token`), channel resolution and stream negotiation
(`get_catchup_stream`), and the backward-scanning EPG search
(`find_program_by_timestamp`).

Modelling conventions:
* naive Python `datetime` values are represented by their epoch-second
  count (an `Int`); `datetime` comparison is chronological, and the
  epoch-second encoding is strictly monotone in it, so `<=` on `Int`
  models `<=` on `datetime`;
* network fetches are oracles passed in as function arguments (the day
  listing table, the login response, the play response);
* Python exceptions that the source catches are modelled by `Option`:
  a parse or shape failure yields `none` exactly where the source's
  `except` clause makes the loop `continue`;
* Python truthiness of strings (`''` is falsy) is modelled explicitly
  wherever the source branches on it.
-/

set_option autoImplicit false

namespace Prima

/-! ## Python string primitives -/

/-- Python slicing `s[:n]` by code points. -/
def pyTake (s : String) (n : Nat) : String :=
  String.mk (s.data.take n)

/-- Python `str.lower()` (ASCII range; all literals compared in the
source are ASCII). -/
def pyLower (s : String) : String :=
  String.mk (s.data.map Char.toLower)

/-- `leadsWith pat l`: `pat` is an initial segment of `l`. -/
def leadsWith : List Char → List Char → Bool
  | [], _ => true
  | _ :: _, [] => false
  | a :: as, b :: bs => a = b && leadsWith as bs

/-- `subIn pat l`: `pat` occurs contiguously inside `l`
(Python `pat in l` on strings). -/
def subIn (pat : List Char) : List Char → Bool
  | [] => pat.isEmpty
  | c :: rest => leadsWith pat (c :: rest) || subIn pat rest

/-- Python `needle in hay` for strings. -/
def strIn (needle hay : String) : Bool :=
  subIn needle.data hay.data

/-- Python `x or d` for `x` a `dict.get` result that is `None` or a
string and `d` a string: the string when truthy, else `d`. -/
def orStr (a : Option String) (d : String) : String :=
  match a with
  | some s => if s.isEmpty then d else s
  | none => d

/-- Python `a or b` for two `dict.get` results (`None` or string):
`a` when truthy, else `b`. -/
def pyOrOpt (a b : Option String) : Option String :=
  match a with
  | some s => if s.isEmpty then b else some s
  | none => b

/-- Python truthiness of a `None`-or-string value. -/
def truthyO : Option String → Bool
  | some s => !s.isEmpty
  | none => false

/-- Python `s.replace('_lq', '')` on the character list: delete every
non-overlapping occurrence of `_lq`, scanning left to right and
continuing after each deletion (Python `str.replace` does not rescan
the replacement site, and with an empty replacement this coincides
with continuing right after the deleted occurrence). -/
def removeLq : List Char → List Char
  | '_' :: 'l' :: 'q' :: rest => removeLq rest
  | c :: rest => c :: removeLq rest
  | [] => []

/-- Python `s.replace('_lq', '')`. -/
def strRemoveLq (s : String) : String :=
  String.mk (removeLq s.data)

/-! ## Calendar arithmetic

Proleptic-Gregorian conversions between `(year, month, day)` and a day
count from 1970-01-01, the standard era-based civil-date algorithm.
These back both `datetime.strptime` (which validates the civil date and
whose result we encode as epoch seconds) and `strftime('%Y-%m-%d')`. -/

def isLeap (y : Nat) : Bool :=
  (y % 4 = 0 && y % 100 ≠ 0) || y % 400 = 0

def daysInMonth (y m : Nat) : Nat :=
  if m = 2 then (if isLeap y then 29 else 28)
  else if m = 4 || m = 6 || m = 9 || m = 11 then 30
  else 31

/-- Day count of civil date `y-m-d` from the epoch 1970-01-01. -/
def daysFromCivil (y m d : Nat) : Int :=
  let yv : Int := if m ≤ 2 then (y : Int) - 1 else (y : Int)
  let era : Int := Int.fdiv yv 400
  let yoe : Int := yv - era * 400
  let mp : Int := if m > 2 then (m : Int) - 3 else (m : Int) + 9
  let doy : Int := Int.fdiv (153 * mp + 2) 5 + (d : Int) - 1
  let doe : Int := yoe * 365 + Int.fdiv yoe 4 - Int.fdiv yoe 100 + doy
  era * 146097 + doe - 719468

/-- Civil date `(y, m, d)` of a day count from 1970-01-01. -/
def civilFromDays (z0 : Int) : Nat × Nat × Nat :=
  let z : Int := z0 + 719468
  let era : Int := Int.fdiv z 146097
  let doe : Int := z - era * 146097
  let yoe : Int :=
    Int.fdiv (doe - Int.fdiv doe 1460 + Int.fdiv doe 36524 - Int.fdiv doe 146096) 365
  let y : Int := yoe + era * 400
  let doy : Int := doe - (365 * yoe + Int.fdiv yoe 4 - Int.fdiv yoe 100)
  let mp : Int := Int.fdiv (5 * doy + 2) 153
  let d : Int := doy - Int.fdiv (153 * mp + 2) 5 + 1
  let m : Int := if mp < 10 then mp + 3 else mp - 9
  ((if m ≤ 2 then y + 1 else y).toNat, m.toNat, d.toNat)

/-- Zero-padded two-digit decimal rendering (`%m`, `%d`). -/
def pad2 (n : Nat) : String :=
  if n < 10 then "0" ++ toString n else toString n

/-- Four-digit year rendering (`%Y`; all years in play have 4 digits). -/
def pad4 (n : Nat) : String :=
  if n < 10 then "000" ++ toString n
  else if n < 100 then "00" ++ toString n
  else if n < 1000 then "0" ++ toString n
  else toString n

/-- `strftime('%Y-%m-%d')` of a naive datetime given in epoch seconds. -/
def dateStrOfEpoch (sec : Int) : String :=
  let c := civilFromDays (Int.fdiv sec 86400)
  pad4 c.1 ++ "-" ++ pad2 c.2.1 ++ "-" ++ pad2 c.2.2

/-! ## `datetime.strptime(s, '%Y-%m-%dT%H:%M:%S')`

CPython compiles the format to the anchored regex
`(\d\d\d\d)-(1[0-2]|0[1-9]|[1-9])-(3[01]|[12]\d|0[1-9]|[1-9])T`
`(2[0-3]|[0-1]\d|\d):([0-5]\d|\d):(6[0-1]|[0-5]\d|\d)` which must
consume the whole string, then builds `datetime(...)`, which raises
`ValueError` on year 0, a day beyond the month's length, or a second
of 60/61.  For each numeric field the ordered two-digit-then-one-digit
trial below is equivalent to the regex with backtracking: a successful
two-digit match can only be abandoned when the following separator is
missing, and then the one-digit alternative needs the separator at a
position known to hold a digit, so no backtracked parse ever succeeds. -/

def dig (c : Char) : Option Nat :=
  if '0' ≤ c ∧ c ≤ '9' then some (c.toNat - 48) else none

/-- `(\d\d\d\d)`: exactly four digits. -/
def parseY4 : List Char → Option (Nat × List Char)
  | a :: b :: c :: d :: rest =>
    match dig a, dig b, dig c, dig d with
    | some w, some x, some y, some z => some (w * 1000 + x * 100 + y * 10 + z, rest)
    | _, _, _, _ => none
  | _ => none

/-- `(1[0-2]|0[1-9]|[1-9])`. -/
def parseMon : List Char → Option (Nat × List Char)
  | a :: b :: rest =>
    match dig a, dig b with
    | some x, some y =>
      if x = 1 && y ≤ 2 then some (10 + y, rest)
      else if x = 0 && 1 ≤ y then some (y, rest)
      else if 1 ≤ x then some (x, b :: rest)
      else none
    | some x, none => if 1 ≤ x then some (x, b :: rest) else none
    | _, _ => none
  | [a] => match dig a with
    | some x => if 1 ≤ x then some (x, []) else none
    | none => none
  | [] => none

/-- `(3[01]|[12]\d|0[1-9]|[1-9])`. -/
def parseDay : List Char → Option (Nat × List Char)
  | a :: b :: rest =>
    match dig a, dig b with
    | some x, some y =>
      if x = 3 && y ≤ 1 then some (30 + y, rest)
      else if x = 1 || x = 2 then some (10 * x + y, rest)
      else if x = 0 && 1 ≤ y then some (y, rest)
      else if 1 ≤ x then some (x, b :: rest)
      else none
    | some x, none => if 1 ≤ x then some (x, b :: rest) else none
    | _, _ => none
  | [a] => match dig a with
    | some x => if 1 ≤ x then some (x, []) else none
    | none => none
  | [] => none

/-- `(2[0-3]|[0-1]\d|\d)`. -/
def parseHour : List Char → Option (Nat × List Char)
  | a :: b :: rest =>
    match dig a, dig b with
    | some x, some y =>
      if x = 2 && y ≤ 3 then some (20 + y, rest)
      else if x ≤ 1 then some (10 * x + y, rest)
      else some (x, b :: rest)
    | some x, none => some (x, b :: rest)
    | _, _ => none
  | [a] => match dig a with
    | some x => some (x, [])
    | none => none
  | [] => none

/-- `([0-5]\d|\d)`. -/
def parseMin : List Char → Option (Nat × List Char)
  | a :: b :: rest =>
    match dig a, dig b with
    | some x, some y =>
      if x ≤ 5 then some (10 * x + y, rest)
      else some (x, b :: rest)
    | some x, none => some (x, b :: rest)
    | _, _ => none
  | [a] => match dig a with
    | some x => some (x, [])
    | none => none
  | [] => none

/-- `(6[0-1]|[0-5]\d|\d)`. -/
def parseSec : List Char → Option (Nat × List Char)
  | a :: b :: rest =>
    match dig a, dig b with
    | some x, some y =>
      if x = 6 && y ≤ 1 then some (60 + y, rest)
      else if x ≤ 5 then some (10 * x + y, rest)
      else some (x, b :: rest)
    | some x, none => some (x, b :: rest)
    | _, _ => none
  | [a] => match dig a with
    | some x => some (x, [])
    | none => none
  | [] => none

/-- Expect a literal character. -/
def parseLit (c : Char) : List Char → Option (List Char)
  | x :: rest => if x = c then some rest else none
  | [] => none

/-- `datetime.strptime(s, '%Y-%m-%dT%H:%M:%S')`, returning the parsed
naive datetime as epoch seconds, or `none` where Python raises
`ValueError` (regex mismatch, leftover input, year 0, day beyond the
month, leap second). -/
def parseTs (s : String) : Option Int := do
  let (y, r1) ← parseY4 s.data
  let r2 ← parseLit '-' r1
  let (m, r3) ← parseMon r2
  let r4 ← parseLit '-' r3
  let (d, r5) ← parseDay r4
  let r6 ← parseLit 'T' r5
  let (hh, r7) ← parseHour r6
  let r8 ← parseLit ':' r7
  let (mm, r9) ← parseMin r8
  let r10 ← parseLit ':' r9
  let (ss, r11) ← parseSec r10
  if r11 ≠ [] then none
  else if y = 0 then none
  else if d > daysInMonth y m then none
  else if ss ≥ 60 then none
  else some (daysFromCivil y m d * 86400 + (hh : Int) * 3600 + (mm : Int) * 60 + (ss : Int))

/-! ## Token lifecycle (`get_prima_token`)

The cached record is the JSON object written by `save_token`; the
source checks `'token' in cached and 'valid_to' in cached`, so both
fields are `Option`s.  The login network call is an oracle: `none`
models every failure the source's `try` swallows (non-2xx, malformed
body, missing `accessToken`), `some tok` models a response whose
`accessToken.value` is `tok`.  `int(time.time())` is read once at the
cache check (`t0`) and once when the fresh record is built (`t1`).
`saved` is the record handed to `save_token` (persistence itself is
best-effort: `save_token` swallows I/O errors). -/

structure CachedToken where
  token : Option String
  valid_to : Option Int
  deriving DecidableEq, Repr

structure TokenOutcome where
  result : Option String
  loginCalled : Bool
  saved : Option (String × Int)
  deriving DecidableEq, Repr

/-- The cache test `cached and 'token' in cached and 'valid_to' in
cached` followed by `cached['valid_to'] > int(time.time())`. -/
def cache_valid (now : Int) : Option CachedToken → Bool
  | some ⟨some _, some v⟩ => v > now
  | _ => false

/-- The cached token value returned on a cache hit. -/
def cached_tok : Option CachedToken → Option String
  | some ⟨some t, some _⟩ => some t
  | _ => none

/-- The branch of `get_prima_token` after the cache check: read the
credentials, bail out on empty ones, otherwise log in and, on success,
build and save the fresh record with a 7-hour validity window. -/
def login_path (t1 : Int) (email password : String)
    (loginResp : Option String) : TokenOutcome :=
  if email.isEmpty || password.isEmpty then ⟨none, false, none⟩
  else
    match loginResp with
    | some tok => ⟨some tok, true, some (tok, t1 + 7 * 60 * 60)⟩
    | none => ⟨none, true, none⟩

/-- `get_prima_token` (prima.py lines 101-153). -/
def get_prima_token (t0 t1 : Int) (cached : Option CachedToken)
    (email password : String) (loginResp : Option String) : TokenOutcome :=
  match cached with
  | some ⟨some tok, some vto⟩ =>
    if vto > t0 then ⟨some tok, false, none⟩
    else login_path t1 email password loginResp
  | _ => login_path t1 email password loginResp

/-! ## EPG items and the backward scan (`find_program_by_timestamp`) -/

/-- One element of a day's `items` array.  The source guards
`isinstance(program, dict)`; a dict is modelled by the key lookups the
source performs (`None` = key absent; string values for the time and
id fields, a boolean for `isPlayable`). -/
inductive Item where
  | notDict
  | dict (programStartTime startTime programEndTime endTime : Option String)
      (title : Option String) (isPlayable : Bool) (playId idv : Option String)
  deriving DecidableEq, Repr

/-- Outcome of the first interval match of the scan: the source either
returns the truthy play id or returns `None` on the spot. -/
inductive DayHit where
  | found (playId : String)
  | notPlayable
  deriving DecidableEq, Repr

/-- `dt.utcfromtimestamp(int(utc_timestamp)) + td(hours=1)`: the fixed
winter-time offset the source applies (line 356). -/
def program_time_of (utc : Int) : Int :=
  utc + 3600

/-- The per-program body of the inner loop (lines 372-407): skip
non-dicts, read the times under both accepted key names, skip on a
missing time, truncate to 19 characters, parse both, skip when
`strptime` raises, and on `start_time <= program_time <= end_time`
report the playable id or the not-playable outcome. -/
def checkItem (t : Int) : Item → Option DayHit
  | .notDict => none
  | .dict pst st pet et _title isP pid idv =>
    let start_str := orStr pst (orStr st "")
    let end_str := orStr pet (orStr et "")
    if start_str.isEmpty || end_str.isEmpty then none
    else
      match parseTs (pyTake start_str 19), parseTs (pyTake end_str 19) with
      | some s, some e =>
        if s ≤ t ∧ t ≤ e then
          let play_id := pyOrOpt pid idv
          if isP && truthyO play_id then some (.found (play_id.getD ""))
          else some .notPlayable
        else none
      | _, _ => none

/-- The parsed `(start, end)` pair of an item, when the item is a dict
carrying times under the accepted keys and both parse; the projection
`checkItem` compares against. -/
def itemTimes : Item → Option (Int × Int)
  | .notDict => none
  | .dict pst st pet et _title _isP _pid _idv =>
    let start_str := orStr pst (orStr st "")
    let end_str := orStr pet (orStr et "")
    if start_str.isEmpty || end_str.isEmpty then none
    else
      match parseTs (pyTake start_str 19), parseTs (pyTake end_str 19) with
      | some s, some e => some (s, e)
      | _, _ => none

/-- The inner `for program in programs` loop: first item reporting a
hit wins; skipped items leave the scan running. -/
def scanDay (t : Int) : List Item → Option DayHit
  | [] => none
  | p :: rest =>
    match checkItem t p with
    | some r => some r
    | none => scanDay t rest

/-- One iteration of the outer day loop: `None` (fetch failure) and an
empty listing both `continue`; otherwise the day's items are scanned. -/
def dayScan (t : Int) (epg : Int → Option (List Item)) (d : Int) : Option DayHit :=
  match epg d with
  | none => none
  | some ps => if ps.isEmpty then none else scanDay t ps

/-- The outer `for day_offset in range(0, -8, -1)` loop. -/
def scanDays (t : Int) (epg : Int → Option (List Item)) : List Int → Option DayHit
  | [] => none
  | d :: ds =>
    match dayScan t epg d with
    | some r => some r
    | none => scanDays t epg ds

/-- `range(0, -8, -1)`. -/
def dayOffsets : List Int :=
  [0, -1, -2, -3, -4, -5, -6, -7]

/-- `find_program_by_timestamp` (prima.py lines 343-410), with the
per-day fetch `get_epg_program(channel_id, day_offset)` abstracted as
the oracle `epg`.  A first match returns its play id when playable and
truthy, `None` otherwise; an exhausted scan returns `None`. -/
def find_program_by_timestamp (epg : Int → Option (List Item)) (utc : Int) : Option String :=
  match scanDays (program_time_of utc) epg dayOffsets with
  | some (.found pid) => some pid
  | some .notPlayable => none
  | none => none

/-! ## The date actually queried per day offset (`get_epg_program`) -/

/-- The date string `get_epg_program` puts in the RPC request (lines
293-294): `(dt.now() + td(days=day_offset)).strftime('%Y-%m-%d')`,
with `dt.now()` — the current local wall-clock instant, NOT the search
target — given as naive epoch seconds. -/
def epg_query_date (now : Int) (day_offset : Int) : String :=
  dateStrOfEpoch (now + day_offset * 86400)

/-- `get_epg_program` with the provider's per-date listings abstracted
as `table` (keyed by the request's date string): the fetch consults the
listing of the date computed from `dt.now()`. -/
def get_epg_program (now : Int) (table : String → Option (List Item))
    (day_offset : Int) : Option (List Item) :=
  table (epg_query_date now day_offset)

/-- `find_program_by_timestamp` composed with the real per-day fetch. -/
def find_program_full (now : Int) (table : String → Option (List Item))
    (utc : Int) : Option String :=
  find_program_by_timestamp (get_epg_program now table) utc

/-! ## Channel resolution and the catchup pipeline (`get_catchup_stream`) -/

/-- An entry of the `epg.channel.list` response, read through
`ch.get('id', '')` and `ch.get('title', '')`. -/
structure Chan where
  id : Option String
  title : Option String
  deriving DecidableEq, Repr

/-- The static `channel_name_map` literal (lines 446-456), with the
`channel_name_map.get(channel_id, [channel_id])` fallback. -/
def channel_name_map (key : String) : List String :=
  if key = "prima" then ["prima", "tv prima"]
  else if key = "primacool" then ["cool", "prima cool"]
  else if key = "primamax" then ["max", "prima max"]
  else if key = "primakrimi" then ["krimi", "prima krimi"]
  else if key = "primalove" then ["love", "prima love"]
  else if key = "primazoom" then ["zoom", "prima zoom"]
  else if key = "primastar" then ["star", "prima star"]
  else if key = "primashow" then ["show", "prima show"]
  else if key = "cnnprimanews" then ["cnn", "cnn prima"]
  else [key]

/-- The channel scan (lines 461-471): in provider order, the first
channel whose lower-cased title contains any candidate fragment sets
`prima_channel_id`; the outer loop only stops when the id is truthy, so
a match carrying an empty id leaves the scan running, and a final falsy
value is the not-found case. -/
def resolve_channel (chans : List Chan) (search_names : List String) : Option String :=
  match chans with
  | [] => none
  | c :: rest =>
    let ch_title := pyLower (orStr c.title "")
    let ch_id := orStr c.id ""
    if search_names.any (fun n => strIn (pyLower n) ch_title) && !ch_id.isEmpty then
      some ch_id
    else resolve_channel rest search_names

/-- One entry of the `streamInfos` array, read through
`stream.get('type', 'unknown')` and `stream.get('url', ...)`. -/
structure StreamInfo where
  type : Option String
  url : Option String
  deriving DecidableEq, Repr

/-- The parsed body of the `products/id-{playId}/play` response:
`streamInfos` when the key is present, and the optional `error`
payload (rendered to a string by the f-string that reports it). -/
structure PlayResp where
  streamInfos : Option (List StreamInfo)
  error : Option String
  deriving DecidableEq, Repr

/-- The result dictionary of the stream phase: either
`{'url': ..., 'manifest_type': 'hls', 'headers': HEADERS}` or
`{'error': msg}`. -/
inductive StreamResult where
  | descriptor (url : String)
  | err (msg : String)
  deriving DecidableEq, Repr

/-- The HLS-preferring loop (lines 510-517): first entry whose type is
`'HLS'` and whose url is truthy. -/
def pick_stream : List StreamInfo → Option String
  | [] => none
  | s :: rest =>
    if orStr s.type "unknown" = "HLS" && !(orStr s.url "").isEmpty then
      some (orStr s.url "")
    else pick_stream rest

/-- The fallthrough of the stream phase (lines 533-536 and 542): the
embedded provider error payload when present, else the generic
stream-not-found message. -/
def err_tail (data : PlayResp) : StreamResult :=
  match data.error with
  | some e => .err ("Prima+ error: " ++ e)
  | none => .err "Stream nenalezen"

/-- The archive-stream phase of `get_catchup_stream` (lines 505-536,
542) applied to the parsed play response: select a stream url (HLS
preferred, else the first entry's url, which may be absent), and when
it is truthy return the descriptor with the `_lq` low-quality marker
stripped. -/
def stream_phase (data : PlayResp) : StreamResult :=
  let stream_url : Option String :=
    match data.streamInfos with
    | none => none
    | some infos =>
      if infos.isEmpty then none
      else
        match pick_stream infos with
        | some u => some u
        | none => infos.head?.bind (fun s => s.url)
  match stream_url with
  | some u => if u.isEmpty then err_tail data else .descriptor (strRemoveLq u)
  | none => err_tail data

/-- `get_catchup_stream` (prima.py lines 413-542) with its network
interactions abstracted: `tokenRes` is the `get_prima_token` result,
`chansRes` the `get_epg_channels` result (`None` covers both a failed
fetch and, through the `if not channels` truthiness test, an empty
list — both produce the same error), `epg` the per-channel per-offset
listing oracle consumed by `find_program_by_timestamp`, and `play` the
parsed play response per play id. -/
def get_catchup_stream (tokenRes : Option String) (chansRes : Option (List Chan))
    (epg : String → Int → Option (List Item)) (play : String → PlayResp)
    (channel_id : String) (utc : Int) : StreamResult :=
  match tokenRes with
  | none =>
    .err "Prima+ catchup vyžaduje přihlášení. Nastavte email a heslo v nastaveních doplňku."
  | some _ =>
    match chansRes with
    | none => .err "Nelze získat seznam kanálů Prima"
    | some chans =>
      if chans.isEmpty then .err "Nelze získat seznam kanálů Prima"
      else
        match resolve_channel chans (channel_name_map channel_id) with
        | none => .err ("Kanál nenalezen: " ++ channel_id)
        | some pcid =>
          match find_program_by_timestamp (epg pcid) utc with
          | none => .err "Program nebyl nalezen v archivu Prima+"
          | some pid => stream_phase (play pid)

/-! ## Spec-side reference definitions -/

/-- Modelled from the spec: the timezone-rules-aware conversion of a
UTC instant to Europe/Prague civil time that §4.4 requires (the code
under src/ only carries the fixed `+ 1 hour` simplification).  EU
rules: CEST (UTC+2) from the last Sunday of March 01:00 UTC to the
last Sunday of October 01:00 UTC, CET (UTC+1) otherwise. -/
def lastSundayOfMonth (y m : Nat) : Nat :=
  let lastDay := daysInMonth y m
  let dow := Int.emod (daysFromCivil y m lastDay + 4) 7
  lastDay - dow.toNat

/-- Modelled from the spec: local Prague civil time (as naive epoch
seconds) of a UTC instant, daylight-saving rules applied per the
instant's calendar year. -/
def pragueLocal (utc : Int) : Int :=
  let y := (civilFromDays (Int.fdiv utc 86400)).1
  let dstStart := daysFromCivil y 3 (lastSundayOfMonth y 3) * 86400 + 3600
  let dstEnd := daysFromCivil y 10 (lastSundayOfMonth y 10) * 86400 + 3600
  if dstStart ≤ utc ∧ utc < dstEnd then utc + 7200 else utc + 3600

/-- Spec-side formulation of the channel scan (§4.3 step 4): the first
channel, in provider order, whose lower-cased title contains any
candidate fragment. -/
def resolve_channel_spec (chans : List Chan) (search_names : List String) : Option String :=
  (chans.find? (fun c =>
      search_names.any (fun n => strIn (pyLower n) (pyLower (orStr c.title ""))))).map
    (fun c => orStr c.id "")

/-- Spec-side formulation of the stream choice (§4.5): the first entry
tagged `HLS`, else the first entry in provider order. -/
def chosen_stream_spec (infos : List StreamInfo) : Option StreamInfo :=
  match infos.find? (fun s => orStr s.type "unknown" = "HLS") with
  | some s => some s
  | none => infos.head?

/-! ## Concrete fixtures used by the witness and counterexample
theorems -/

/-- A playable program airing 14:00-14:30 local Prague time on
2024-07-01 (a CEST date). -/
def itemC1 : Item :=
  .dict (some "2024-07-01T14:00:00") none (some "2024-07-01T14:30:00") none
    (some "Odpoledni film") true (some "p1") none

/-- Day table: the listing of day offset 0 holds exactly `itemC1`. -/
def epgC1 : Int → Option (List Item) :=
  fun d => if d = 0 then some [itemC1] else none

/-- An unplayable program covering 12:00-14:30 local on 2024-07-01. -/
def itemUnpl : Item :=
  .dict (some "2024-07-01T12:00:00") none (some "2024-07-01T14:30:00") none
    (some "Blok") false (some "p2") none

/-- A playable duplicate covering 12:30-13:30 local on 2024-07-01. -/
def itemDup : Item :=
  .dict (some "2024-07-01T12:30:00") none (some "2024-07-01T13:30:00") none
    (some "Blok repriza") true (some "p3") none

/-- Day table for the short-circuit witness: the unplayable covering
program sits at offset 0, a playable covering duplicate at offset -1. -/
def epgW : Int → Option (List Item) :=
  fun d => if d = 0 then some [itemUnpl] else if d = -1 then some [itemDup] else none

/-- Per-channel day oracle whose every channel serves `epgW` day 0's
unplayable covering program. -/
def epgUnplC : String → Int → Option (List Item) :=
  fun _ d => if d = 0 then some [itemUnpl] else none

/-- Per-channel day oracle with no listings at all. -/
def epgNoneC : String → Int → Option (List Item) :=
  fun _ _ => none

/-- Play-response oracle that never returns streams. -/
def playNone : String → PlayResp :=
  fun _ => ⟨none, none⟩

/-- The channel list of the spec's order-sensitivity example. -/
def chanX : Chan := ⟨some "x", some "Prima Cool"⟩

def chanY : Chan := ⟨some "y", some "Prima"⟩

/-- A playable program listed under the calendar date 1969-12-26 whose
interval spans through 1970-01-02, hence covers the local instant
1970-01-01T01:00:00. -/
def itemSpan : Item :=
  .dict (some "1969-12-26T00:00:00") none (some "1970-01-02T00:00:00") none
    none true (some "p9") none

/-- Date-keyed provider table holding `itemSpan` only under
"1969-12-26". -/
def tableC3 : String → Option (List Item) :=
  fun s => if s = "1969-12-26" then some [itemSpan] else none

/-- `tableC3` with an extra listing at "1969-12-27" — the date of day
offset -8 relative to the `now` fixture 259200 (1970-01-04). -/
def tableC3b : String → Option (List Item) :=
  fun s => if s = "1969-12-27" then some [itemSpan] else tableC3 s

/-- Stream entries for the selection witness: a non-HLS entry first,
the HLS entry second, both with a `_lq` low-quality marker. -/
def infosW : List StreamInfo :=
  [⟨some "DASH", some "http://a_lq/x.mpd"⟩, ⟨some "HLS", some "http://b_lq/m.m3u8"⟩]

/-- An item whose start string does not parse. -/
def itemBad : Item :=
  .dict (some "not-a-time") none (some "2024-07-01T14:30:00") none
    none true (some "p4") none

/-! ## Helper lemmas about the scan -/

theorem dayScan_pos (t : Int) (epg : Int → Option (List Item)) (d : Int)
    (ps : List Item) (r : DayHit) (hepg : epg d = some ps)
    (hscan : scanDay t ps = some r) : dayScan t epg d = some r := by
  unfold dayScan
  rw [hepg]
  cases ps with
  | nil => simp [scanDay] at hscan
  | cons a l => simpa using hscan

theorem scanDays_first (t : Int) (epg : Int → Option (List Item)) (r : DayHit) :
    ∀ (ds1 : List Int) (d : Int) (ds2 : List Int),
      (∀ x ∈ ds1, dayScan t epg x = none) → dayScan t epg d = some r →
      scanDays t epg (ds1 ++ d :: ds2) = some r
  | [], d, ds2, _, hd => by simp [scanDays, hd]
  | x :: xs, d, ds2, h, hd => by
    have hx : dayScan t epg x = none := h x (List.mem_cons_self x xs)
    simp only [List.cons_append, scanDays, hx]
    exact scanDays_first t epg r xs d ds2 (fun y hy => h y (List.mem_cons_of_mem x hy)) hd

theorem scanDays_congr (t : Int) (epg epg2 : Int → Option (List Item)) :
    ∀ ds : List Int, (∀ d ∈ ds, dayScan t epg d = dayScan t epg2 d) →
      scanDays t epg ds = scanDays t epg2 ds
  | [], _ => rfl
  | d :: ds, h => by
    simp only [scanDays, h d (List.mem_cons_self d ds)]
    cases hd : dayScan t epg2 d with
    | some r => rfl
    | none => exact scanDays_congr t epg epg2 ds (fun y hy => h y (List.mem_cons_of_mem d hy))

theorem scanDays_none (t : Int) (epg : Int → Option (List Item)) :
    ∀ ds : List Int, (∀ d ∈ ds, dayScan t epg d = none) → scanDays t epg ds = none
  | [], _ => rfl
  | d :: ds, h => by
    simp only [scanDays, h d (List.mem_cons_self d ds)]
    exact scanDays_none t epg ds (fun y hy => h y (List.mem_cons_of_mem d hy))

theorem get_prima_token_invalid_cache (t0 t1 : Int) (c : Option CachedToken)
    (e p : String) (l : Option String) (h : cache_valid t0 c = false) :
    get_prima_token t0 t1 c e p l = login_path t1 e p l := by
  match c with
  | none => rfl
  | some ⟨none, vt⟩ => rfl
  | some ⟨some tok, none⟩ => rfl
  | some ⟨some tok, some v⟩ =>
    have hv : ¬ (v > t0) := of_decide_eq_false (by simpa [cache_valid] using h)
    simp [get_prima_token, hv]

/-! ## Claim theorems -/

/-- C1: the claim requires `find_program_by_timestamp` to convert the
UTC target with a daylight-saving-aware conversion (UTC+2 in the CEST
period).  The code applies a fixed +1 hour instead (its own comment
acknowledges CEST needs +2 and leaves a TODO), so at the CEST instant
2024-07-01T12:00:00Z (epoch 1719835200) it compares at 13:00 local
while the correct Prague local time is 14:00, and the scan misses a
playable program airing 14:00-14:30 local that covers the instant. -/
theorem prima_fixed_offset_dst_bug :
    program_time_of 1719835200 = 1719838800 ∧
    pragueLocal 1719835200 = 1719842400 ∧
    program_time_of 1719835200 ≠ pragueLocal 1719835200 ∧
    scanDay (pragueLocal 1719835200) [itemC1] = some (.found "p1") ∧
    find_program_by_timestamp epgC1 1719835200 = none := by
  decide

/-- C7: once the backward scan reaches a day offset whose listing
yields the first interval match `r` (every offset scanned before it
produced nothing), `find_program_by_timestamp` returns the playable
play id or `None` determined by `r` alone: the remaining offsets
`ds2`, and whatever `epg` would serve there, are never examined. -/
theorem first_match_short_circuit (utc : Int) (epg : Int → Option (List Item))
    (ds1 : List Int) (d : Int) (ds2 : List Int) (ps : List Item) (r : DayHit)
    (hsplit : dayOffsets = ds1 ++ d :: ds2)
    (hprev : ∀ x ∈ ds1, dayScan (program_time_of utc) epg x = none)
    (hepg : epg d = some ps)
    (hscan : scanDay (program_time_of utc) ps = some r) :
    find_program_by_timestamp epg utc =
      (match r with | .found pid => some pid | .notPlayable => none) := by
  have key : scanDays (program_time_of utc) epg dayOffsets = some r := by
    rw [hsplit]
    exact scanDays_first _ _ _ ds1 d ds2 hprev (dayScan_pos _ _ _ _ _ hepg hscan)
  cases r <;> simp [find_program_by_timestamp, key]

/-- C7 witness: the unplayable covering program at offset 0 ends the
scan with `None` even though offset -1 holds a playable covering
duplicate. -/
theorem first_match_short_circuit_witness :
    find_program_by_timestamp epgW 1719835200 = none ∧
    dayScan (program_time_of 1719835200) epgW (-1) = some (.found "p3") :=
  ⟨first_match_short_circuit 1719835200 epgW [] 0 [-1, -2, -3, -4, -5, -6, -7]
      [itemUnpl] .notPlayable (by decide) (by decide) (by decide) (by decide),
    by decide⟩

/-- C6: interval matching is inclusive at both endpoints: an item with
parsed start `s` and end `e` is reported by `checkItem` (as playable or
not) exactly when `s <= t <= e`; in particular `t = s` and `t = e`
match. -/
theorem interval_match_inclusive (t : Int) (item : Item) (s e : Int)
    (h : itemTimes item = some (s, e)) :
    (checkItem t item).isSome ↔ (s ≤ t ∧ t ≤ e) := by
  cases item with
  | notDict => simp [itemTimes] at h
  | dict pst st pet et ti isP pid idv =>
    simp only [itemTimes] at h
    simp only [checkItem]
    by_cases h1 : (orStr pst (orStr st "")).isEmpty || (orStr pet (orStr et "")).isEmpty
    · rw [if_pos h1] at h
      exact absurd h (by simp)
    · rw [if_neg h1] at h
      rw [if_neg h1]
      cases hp : parseTs (pyTake (orStr pst (orStr st "")) 19) with
      | none => rw [hp] at h; exact absurd h (by simp)
      | some sv =>
        cases hq : parseTs (pyTake (orStr pet (orStr et "")) 19) with
        | none => rw [hp, hq] at h; exact absurd h (by simp)
        | some ev =>
          rw [hp, hq] at h
          simp only [Option.some.injEq, Prod.mk.injEq] at h
          obtain ⟨rfl, rfl⟩ := h
          by_cases hc : sv ≤ t ∧ t ≤ ev
          · refine iff_of_true ?_ hc
            simp only [if_pos hc]
            split <;> rfl
          · simp [hc]

/-- C6 witness: a 14:00-14:30 program matches the instants exactly
equal to its start and to its end. -/
theorem interval_match_inclusive_witness :
    itemTimes itemC1 = some (1719842400, 1719844200) ∧
    (checkItem 1719842400 itemC1).isSome = true ∧
    (checkItem 1719844200 itemC1).isSome = true :=
  ⟨by decide,
    by rw [(interval_match_inclusive 1719842400 itemC1 1719842400 1719844200 (by decide))]
       decide,
    by rw [(interval_match_inclusive 1719844200 itemC1 1719842400 1719844200 (by decide))]
       decide⟩

/-- C10: an item that is not a dict, lacks a start or an end time
under both accepted key names, or whose timestamp strings fail to
parse (all summarized by `itemTimes = none`) is skipped: `checkItem`
reports nothing for it (Python exceptions were caught and turned into
`continue`), the item scan proceeds with the remaining items, and a
day that produced no hit lets the outer scan proceed with the
remaining days. -/
theorem malformed_items_skipped (t : Int) (epg : Int → Option (List Item))
    (item : Item) (rest : List Item) (d : Int) (ds : List Int)
    (h : itemTimes item = none) :
    (checkItem t item = none ∧ scanDay t (item :: rest) = scanDay t rest) ∧
    (dayScan t epg d = none → scanDays t epg (d :: ds) = scanDays t epg ds) := by
  have hc : checkItem t item = none := by
    cases item with
    | notDict => rfl
    | dict pst st pet et ti isP pid idv =>
      simp only [itemTimes] at h
      simp only [checkItem]
      by_cases h1 : (orStr pst (orStr st "")).isEmpty || (orStr pet (orStr et "")).isEmpty
      · rw [if_pos h1]
      · rw [if_neg h1] at h
        rw [if_neg h1]
        cases hp : parseTs (pyTake (orStr pst (orStr st "")) 19) with
        | none =>
          cases hq : parseTs (pyTake (orStr pet (orStr et "")) 19) <;> rfl
        | some sv =>
          cases hq : parseTs (pyTake (orStr pet (orStr et "")) 19) with
          | none => rfl
          | some ev => rw [hp, hq] at h; exact absurd h (by simp)
  refine ⟨⟨hc, ?_⟩, ?_⟩
  · simp [scanDay, hc]
  · intro hd
    simp [scanDays, hd]

/-- C10 witness: a non-dict item and an item with an unparseable start
string are both skipped, and a hitless day lets the scan continue. -/
theorem malformed_items_skipped_witness :
    (checkItem 1719838800 .notDict = none ∧
      scanDay 1719838800 [.notDict, itemBad] = scanDay 1719838800 [itemBad]) ∧
    (checkItem 1719838800 itemBad = none ∧
      scanDay 1719838800 [itemBad] = scanDay 1719838800 []) ∧
    (dayScan 1719838800 epgC1 5 = none →
      scanDays 1719838800 epgC1 (5 :: dayOffsets) = scanDays 1719838800 epgC1 dayOffsets) :=
  ⟨(malformed_items_skipped 1719838800 epgC1 .notDict [itemBad] 5 dayOffsets (by decide)).1,
    (malformed_items_skipped 1719838800 epgC1 itemBad [] 5 dayOffsets (by decide)).1,
    (malformed_items_skipped 1719838800 epgC1 itemBad [] 5 dayOffsets (by decide)).2⟩

/-- C2 counterexample: the claim demands a `ProgramNotPlayable`
outcome distinguishable, as a value and as a user-visible message,
from `ProgramNotFound`.  At the same target instant, a scan state with
an unplayable covering program (offset 0 of `epgUnplC`) and a scan
state with no covering program at all (`epgNoneC`) produce the same
`None` from `find_program_by_timestamp` and the very same Czech
"program not found in the archive" message from
`get_catchup_stream`. -/
theorem notplayable_indistinguishable_cex :
    scanDay (program_time_of 1719835200) [itemUnpl] = some .notPlayable ∧
    find_program_by_timestamp (epgUnplC "x") 1719835200 = none ∧
    find_program_by_timestamp (epgNoneC "x") 1719835200 = none ∧
    get_catchup_stream (some "tk") (some [chanX]) epgUnplC playNone "primacool" 1719835200 =
      .err "Program nebyl nalezen v archivu Prima+" ∧
    get_catchup_stream (some "tk") (some [chanX]) epgNoneC playNone "primacool" 1719835200 =
      .err "Program nebyl nalezen v archivu Prima+" := by
  decide

/-- C2 amended: when the backward scan's first covering program is not
available for replay, `find_program_by_timestamp` returns `None` — the
same value as when no covering program exists in any scanned day — and
`get_catchup_stream` surfaces the same "Program nebyl nalezen v
archivu Prima+" message in both cases; the unplayable case is
distinguishable only in the log, not in the result. -/
theorem notplayable_collapses_to_notfound (tok : String) (chans : List Chan)
    (epg : String → Int → Option (List Item)) (play : String → PlayResp)
    (chid : String) (utc : Int) (pcid : String)
    (hne : chans ≠ [])
    (hres : resolve_channel chans (channel_name_map chid) = some pcid)
    (hscan : scanDays (program_time_of utc) (epg pcid) dayOffsets = some .notPlayable) :
    find_program_by_timestamp (epg pcid) utc = none ∧
    get_catchup_stream (some tok) (some chans) epg play chid utc =
      .err "Program nebyl nalezen v archivu Prima+" ∧
    ∀ epg2 : String → Int → Option (List Item),
      scanDays (program_time_of utc) (epg2 pcid) dayOffsets = none →
      find_program_by_timestamp (epg2 pcid) utc = none ∧
      get_catchup_stream (some tok) (some chans) epg2 play chid utc =
        .err "Program nebyl nalezen v archivu Prima+" := by
  have hemp : chans.isEmpty = false := by
    cases chans with
    | nil => exact absurd rfl hne
    | cons a l => rfl
  have hfind : find_program_by_timestamp (epg pcid) utc = none := by
    unfold find_program_by_timestamp
    rw [hscan]
  refine ⟨hfind, ?_, ?_⟩
  · unfold get_catchup_stream
    simp [hemp, hres, hfind]
  · intro epg2 h2
    have hf2 : find_program_by_timestamp (epg2 pcid) utc = none := by
      unfold find_program_by_timestamp
      rw [h2]
    refine ⟨hf2, ?_⟩
    unfold get_catchup_stream
    simp [hemp, hres, hf2]

/-- C2 amended witness: the unplayable-covering-program state and the
empty-guide state yield the identical catchup error result. -/
theorem notplayable_collapses_to_notfound_witness :
    get_catchup_stream (some "tk") (some [chanX]) epgUnplC playNone "primacool" 1719835200 =
      .err "Program nebyl nalezen v archivu Prima+" ∧
    get_catchup_stream (some "tk") (some [chanX]) epgNoneC playNone "primacool" 1719835200 =
      .err "Program nebyl nalezen v archivu Prima+" := by
  have h := notplayable_collapses_to_notfound "tk" [chanX] epgUnplC playNone
    "primacool" 1719835200 "x" (by decide) (by decide) (by decide)
  exact ⟨h.2.1, (h.2.2 epgNoneC (by decide)).2⟩

/-- C3 counterexample: the claim keys the 8 day offsets to the local
calendar date of the converted target instant.  The code keys them to
`dt.now()` instead (`get_epg_program` line 293).  With the current
local wall clock at 1970-01-04T00:00:00 (epoch 259200) and the target
UTC 0 (converted local instant 3600, date 1970-01-01): the offset-0
query date is 1970-01-04, not the target's date, and a listing stored
at the target-relative offset -6 date 1969-12-26 containing a playable
program covering the target (itemSpan, spanning into 1970-01-02) is
never consulted — the search returns `None` where the claim requires
it to be found. -/
theorem scan_window_now_relative_cex :
    epg_query_date 259200 0 = "1970-01-04" ∧
    dateStrOfEpoch (program_time_of 0) = "1970-01-01" ∧
    epg_query_date 259200 0 ≠ dateStrOfEpoch (program_time_of 0) ∧
    dateStrOfEpoch (program_time_of 0 + (-6) * 86400) = "1969-12-26" ∧
    tableC3 "1969-12-26" = some [itemSpan] ∧
    scanDay (program_time_of 0) [itemSpan] = some (.found "p9") ∧
    find_program_full 259200 tableC3 0 = none := by
  decide

/-- C3 amended: `find_program_by_timestamp` consults per-day listings
exactly for day offsets 0, -1, ..., -7 computed relative to the
current local calendar date at call time (`dt.now()`), not relative to
the converted target instant's date: the result depends only on the
listings of those 8 now-relative dates (in particular offset -8 is
never queried), and when none of them yields a covering program the
result is the not-found outcome `None`. -/
theorem scan_window_now_relative (now utc : Int)
    (table table2 : String → Option (List Item)) :
    ((∀ d ∈ dayOffsets, table (epg_query_date now d) = table2 (epg_query_date now d)) →
      find_program_full now table utc = find_program_full now table2 utc) ∧
    ((∀ d ∈ dayOffsets, dayScan (program_time_of utc) (get_epg_program now table) d = none) →
      find_program_full now table utc = none) := by
  constructor
  · intro h
    unfold find_program_full find_program_by_timestamp
    have hs : scanDays (program_time_of utc) (get_epg_program now table) dayOffsets =
        scanDays (program_time_of utc) (get_epg_program now table2) dayOffsets := by
      apply scanDays_congr
      intro d hd
      unfold dayScan get_epg_program
      rw [h d hd]
    rw [hs]
  · intro h
    unfold find_program_full find_program_by_timestamp
    rw [scanDays_none _ _ _ h]

/-- C3 amended witness: adding a listing at the date of now-relative
day offset -8 (1969-12-27 for `now` = 1970-01-04) leaves the result
unchanged, and a guide with no covering program in the 8 queried
now-relative dates yields `None`. -/
theorem scan_window_now_relative_witness :
    find_program_full 259200 tableC3 0 = find_program_full 259200 tableC3b 0 ∧
    find_program_full 259200 tableC3 0 = none :=
  ⟨(scan_window_now_relative 259200 0 tableC3 tableC3b).1 (by decide),
    (scan_window_now_relative 259200 0 tableC3 tableC3b).2 (by decide)⟩

/-- C4: `get_prima_token` never returns an expired token.  On a cache
hit (`valid_to` strictly greater than the current time, both fields
present) the cached token is returned unchanged with no login call and
nothing rewritten; in every other case, any token that is returned was
obtained from a fresh login and the record handed to `save_token`
before returning carries `valid_to = now + 7*3600` (with `now` the
`int(time.time())` read when the record is built). -/
theorem token_cache_lifecycle (t0 t1 : Int) (c : Option CachedToken)
    (e p : String) (l : Option String) :
    (cache_valid t0 c = true → get_prima_token t0 t1 c e p l = ⟨cached_tok c, false, none⟩) ∧
    (cache_valid t0 c = false → ∀ tok, (get_prima_token t0 t1 c e p l).result = some tok →
      (get_prima_token t0 t1 c e p l).loginCalled = true ∧
      (get_prima_token t0 t1 c e p l).saved = some (tok, t1 + 7 * 60 * 60)) := by
  constructor
  · intro h
    match c with
    | none => simp [cache_valid] at h
    | some ⟨none, vt⟩ => simp [cache_valid] at h
    | some ⟨some tok, none⟩ => simp [cache_valid] at h
    | some ⟨some tok, some v⟩ =>
      have hv : v > t0 := of_decide_eq_true (by simpa [cache_valid] using h)
      simp [get_prima_token, cached_tok, hv]
  · intro h tok hres
    rw [get_prima_token_invalid_cache t0 t1 c e p l h] at hres ⊢
    unfold login_path at hres ⊢
    by_cases hep : (e.isEmpty || p.isEmpty) = true
    · rw [if_pos hep] at hres
      exact absurd hres (by simp)
    · rw [if_neg hep] at hres ⊢
      cases l with
      | none => exact absurd hres (by simp)
      | some tk =>
        simp only [Option.some.injEq] at hres
        subst hres
        exact ⟨rfl, rfl⟩

/-- C4 witness: a still-valid cached token is returned unchanged with
no login, and an expired cache leads to a fresh token persisted with a
7-hour validity window. -/
theorem token_cache_lifecycle_witness :
    get_prima_token 100 100 (some ⟨some "tk", some 200⟩) "" "" none =
      ⟨some "tk", false, none⟩ ∧
    (get_prima_token 100 105 (some ⟨some "tk", some 50⟩) "e" "p" (some "fresh")).loginCalled
      = true ∧
    (get_prima_token 100 105 (some ⟨some "tk", some 50⟩) "e" "p" (some "fresh")).saved
      = some ("fresh", 25305) := by
  have h1 := (token_cache_lifecycle 100 100 (some ⟨some "tk", some 200⟩) "" "" none).1
    (by decide)
  have h2 := (token_cache_lifecycle 100 105 (some ⟨some "tk", some 50⟩) "e" "p"
    (some "fresh")).2 (by decide) "fresh" (by decide)
  exact ⟨h1.trans (by decide), h2.1, h2.2.trans (by decide)⟩

/-- C5: channel resolution maps the caller key through the static
alias table `channel_name_map` (which falls back to the raw key) and,
when every listed channel carries a truthy id, returns the id of the
first channel in provider-returned order whose lower-cased title
contains any candidate fragment — the `List.find?` of the fragment
test. -/
theorem channel_resolution_first_match (chans : List Chan) (key : String)
    (h : ∀ c ∈ chans, (orStr c.id "").isEmpty = false) :
    resolve_channel chans (channel_name_map key) =
      resolve_channel_spec chans (channel_name_map key) := by
  induction chans with
  | nil => rfl
  | cons c rest ih =>
    have hc := h c (List.mem_cons_self c rest)
    have hrest : ∀ x ∈ rest, (orStr x.id "").isEmpty = false :=
      fun x hx => h x (List.mem_cons_of_mem c hx)
    by_cases hm :
        ((channel_name_map key).any fun n => strIn (pyLower n) (pyLower (orStr c.title ""))) = true
    · have hl : resolve_channel (c :: rest) (channel_name_map key) = some (orStr c.id "") := by
        simp [resolve_channel, hm, hc]
      rw [hl]
      unfold resolve_channel_spec
      simp [List.find?_cons, hm]
    · have hl : resolve_channel (c :: rest) (channel_name_map key) =
          resolve_channel rest (channel_name_map key) := by
        simp [resolve_channel, hm]
      have hm2 :
          ((channel_name_map key).any fun n => strIn (pyLower n) (pyLower (orStr c.title ""))) =
            false := by
        simpa using hm
      rw [hl, ih hrest]
      unfold resolve_channel_spec
      simp [List.find?_cons, hm2]

/-- C5 witness: the spec's order-sensitivity example: for the list
`[{id: x, title: Prima Cool}, {id: y, title: Prima}]` and caller key
`primacool` the resolved provider id is `x`, the first match in
provider order, not `y`. -/
theorem channel_resolution_first_match_witness :
    resolve_channel [chanX, chanY] (channel_name_map "primacool") = some "x" :=
  (channel_resolution_first_match [chanX, chanY] "primacool" (by decide)).trans (by decide)

theorem pick_stream_eq_find (infos : List StreamInfo)
    (h : ∀ s ∈ infos, (orStr s.url "").isEmpty = false) :
    pick_stream infos =
      (infos.find? fun s => orStr s.type "unknown" = "HLS").map fun s => orStr s.url "" := by
  induction infos with
  | nil => rfl
  | cons s rest ih =>
    have hs := h s (List.mem_cons_self s rest)
    have hrest : ∀ x ∈ rest, (orStr x.url "").isEmpty = false :=
      fun x hx => h x (List.mem_cons_of_mem s hx)
    by_cases ht : orStr s.type "unknown" = "HLS"
    · simp [pick_stream, List.find?_cons, ht, hs]
    · simp [pick_stream, List.find?_cons, ht, ih hrest]

/-- C8: the archive-stream phase returns the url of the first
`streamInfos` entry tagged `HLS` — or of the first entry in provider
order when no `HLS` entry exists — with every `_lq` low-quality marker
removed (all entries assumed to carry a truthy url, the shape the
claim describes); an absent or empty `streamInfos` collection yields
an error result, never a descriptor. -/
theorem stream_selection_policy (data : PlayResp) (infos : List StreamInfo) :
    ((data.streamInfos = none ∨ data.streamInfos = some []) →
      ∀ u, stream_phase data ≠ .descriptor u) ∧
    (data.streamInfos = some infos → infos ≠ [] →
      (∀ s ∈ infos, (orStr s.url "").isEmpty = false) →
      stream_phase data =
        .descriptor (strRemoveLq (orStr ((chosen_stream_spec infos).getD ⟨none, none⟩).url ""))) := by
  obtain ⟨si, er⟩ := data
  constructor
  · rintro (h | h) u <;>
      simp only [PlayResp.mk.injEq] at h <;>
      subst h <;>
      simp [stream_phase, err_tail] <;>
      cases er <;> simp
  · intro hinfos hne h
    simp only at hinfos
    subst hinfos
    cases infos with
    | nil => exact absurd rfl hne
    | cons s0 rest =>
      unfold stream_phase
      simp only [List.isEmpty_cons, Bool.false_eq_true, if_false]
      rw [pick_stream_eq_find _ h]
      cases hf : (s0 :: rest).find? fun s => orStr s.type "unknown" = "HLS" with
      | some sh =>
        have hsh : (orStr sh.url "").isEmpty = false :=
          h sh (List.mem_of_find?_eq_some hf)
        unfold chosen_stream_spec
        rw [hf]
        simp [hsh]
      | none =>
        have hs0 := h s0 (List.mem_cons_self s0 rest)
        unfold chosen_stream_spec
        rw [hf]
        cases hu : s0.url with
        | none =>
          rw [hu] at hs0
          exact absurd hs0 (by decide)
        | some u =>
          rw [hu] at hs0
          have hune : u.isEmpty = false := by
            by_cases he : u.isEmpty = true
            · rw [show orStr (some u) "" = "" from by simp [orStr, he]] at hs0
              exact absurd hs0 (by decide)
            · simpa using he
          have horw : orStr (some u) "" = u := by simp [orStr, hune]
          simp [List.head?, hu, horw, hune]

/-- C8 witness: with a non-HLS first entry and an HLS second entry,
the HLS url is chosen and its `_lq` marker stripped; absent and empty
collections both fail to produce a descriptor. -/
theorem stream_selection_policy_witness :
    stream_phase ⟨some infosW, none⟩ = .descriptor "http://b/m.m3u8" ∧
    stream_phase ⟨some [], some "geo"⟩ ≠ .descriptor "http://b/m.m3u8" ∧
    stream_phase ⟨none, none⟩ ≠ .descriptor "http://b/m.m3u8" := by
  refine ⟨?_, ?_, ?_⟩
  · exact ((stream_selection_policy ⟨some infosW, none⟩ infosW).2 rfl (by decide)
      (by decide)).trans (by decide)
  · exact (stream_selection_policy ⟨some [], some "geo"⟩ infosW).1 (Or.inr rfl) _
  · exact (stream_selection_policy ⟨none, none⟩ infosW).1 (Or.inl rfl) _

/-- C9: with an invalid (or absent) cached token and an empty email or
password, `get_prima_token` returns `None` without performing the
login network call, and `get_catchup_stream` fed that result fails at
once with the missing-credentials message — whatever the channel-list,
EPG and play oracles would have answered, they are never consulted. -/
theorem missing_credentials_no_network (t0 t1 : Int) (c : Option CachedToken)
    (e p : String) (l : Option String) (chansRes : Option (List Chan))
    (epg : String → Int → Option (List Item)) (play : String → PlayResp)
    (chid : String) (utc : Int)
    (hcache : cache_valid t0 c = false) (hcred : (e.isEmpty || p.isEmpty) = true) :
    (get_prima_token t0 t1 c e p l).loginCalled = false ∧
    (get_prima_token t0 t1 c e p l).result = none ∧
    get_catchup_stream (get_prima_token t0 t1 c e p l).result chansRes epg play chid utc =
      .err "Prima+ catchup vyžaduje přihlášení. Nastavte email a heslo v nastaveních doplňku." := by
  have h1 : get_prima_token t0 t1 c e p l = ⟨none, false, none⟩ := by
    rw [get_prima_token_invalid_cache t0 t1 c e p l hcache]
    unfold login_path
    rw [if_pos hcred]
  rw [h1]
  exact ⟨rfl, rfl, rfl⟩

/-- C9 witness: empty email, no cache: the login flag stays false and
the resolution fails with the missing-credentials message. -/
theorem missing_credentials_no_network_witness :
    (get_prima_token 100 100 none "" "secret" none).loginCalled = false ∧
    (get_prima_token 100 100 none "" "secret" none).result = none ∧
    get_catchup_stream (get_prima_token 100 100 none "" "secret" none).result
      (some [chanX]) epgUnplC playNone "primacool" 1719835200 =
      .err "Prima+ catchup vyžaduje přihlášení. Nastavte email a heslo v nastaveních doplňku." :=
  missing_credentials_no_network 100 100 none "" "secret" none (some [chanX]) epgUnplC
    playNone "primacool" 1719835200 (by decide) (by decide)

end Prima

